import Mathlib

/-
Verification of the verifyWifi captive-portal system against its design
specification.  The React authentication page (VerifyWifiPage.tsx) is
embedded from the source; the proxy / session-store / auth-API backend
(src/pyserver) is not part of the snapshot, so those components are
modelled from the spec, as marked on each definition.
-/

namespace VerifyWifi

/-- Authentication state of a device, as observed through the session store. -/
inductive SessionState
  | AUTHENTICATED
  | UNAUTHENTICATED
deriving DecidableEq, Repr

/-- Session record, per spec section 3: token issued on success, creation and
expiry timestamps (timestamps are modelled as natural numbers). -/
structure Session where
  token : Option String
  created_at : Nat
  expires_at : Nat
deriving DecidableEq, Repr

/-- Modelled from the spec: the durable session store (SQLite in
src/pyserver, absent from the snapshot) as an association list from device
address to session record, at most one record per address. -/
def Store := List (String × Session)

/-- Raw row lookup for an address: first record whose key matches. -/
def Store.getRaw (s : Store) (a : String) : Option Session :=
  (List.find? (fun p => p.1 == a) s).map (fun p => p.2)

/-- Modelled from the spec (section 4.1): get returns UNAUTHENTICATED when no
row exists or the row is expired, AUTHENTICATED otherwise; expiry is
evaluated lazily at lookup time. -/
def Store.getState (s : Store) (now : Nat) (a : String) : SessionState :=
  match Store.getRaw s a with
  | none => .UNAUTHENTICATED
  | some sess => if now < sess.expires_at then .AUTHENTICATED else .UNAUTHENTICATED

/-- Modelled from the spec (section 4.1): remove deletes every record for the
address; removing an absent address is not an error. -/
def Store.remove (s : Store) (a : String) : Store :=
  List.filter (fun p => !(p.1 == a)) s

/-- Modelled from the spec (section 4.1): put creates or overwrites the record
for the address with state AUTHENTICATED and expiry now + ttl. -/
def Store.put (s : Store) (a tok : String) (now ttl : Nat) : Store :=
  (a, ⟨some tok, now, now + ttl⟩) :: Store.remove s a

/-- Scheme of a pending request: plain HTTP or a tunnel-establishment
request (CONNECT). -/
inductive Scheme
  | plainHTTP
  | tunnelled
deriving DecidableEq, Repr

/-- Action returned by the policy decision engine. -/
inductive Action
  | FORWARD
  | REDIRECT_AUTH
  | REJECT
deriving DecidableEq, Repr

/-- Pending request being classified, per spec section 3: method, target,
scheme, source address; transient, never persisted. -/
structure PendingRequest where
  method : String
  target : String
  scheme : Scheme
  sourceAddress : String
deriving DecidableEq, Repr

/-- Storage failure reported by the session store during a lookup. -/
inductive StoreIoError
  | ioFailure (msg : String)
deriving DecidableEq, Repr

/-- Modelled from the spec (sections 4.2 and 7): the decision engine of
wifi_proxy.py (absent from the snapshot).  The lookup result is passed in
explicitly: an AUTHENTICATED session forwards; an UNAUTHENTICATED one
redirects plain HTTP and rejects tunnel requests; a storage error during
lookup fails closed to REJECT. -/
def decide (lookup : Except StoreIoError SessionState) (r : PendingRequest) : Action :=
  match lookup with
  | .error _ => .REJECT
  | .ok .AUTHENTICATED => .FORWARD
  | .ok .UNAUTHENTICATED =>
    match r.scheme with
    | .plainHTTP => .REDIRECT_AUTH
    | .tunnelled => .REJECT

/-- Credential pair submitted to or configured for the auth endpoint. -/
structure Credentials where
  username : String
  password : String
deriving DecidableEq, Repr

/-- Configured single credential pair (README: addyya / sf123123). -/
def VALID_CREDENTIALS : Credentials :=
  { username := "addyya", password := "sf123123" }

/-- Error returned by the auth endpoint on a credential mismatch. -/
inductive AuthError
  | InvalidCredentials
deriving DecidableEq, Repr

/-- Modelled from the spec (section 4.4): login compares the submitted pair
against the configured pair; on match it puts an AUTHENTICATED record and
returns the fresh token; on mismatch it returns InvalidCredentials without
touching the store. -/
def login (s : Store) (address username password newToken : String) (now ttl : Nat) :
    Except AuthError String × Store :=
  if username = VALID_CREDENTIALS.username ∧ password = VALID_CREDENTIALS.password then
    (.ok newToken, Store.put s address newToken now ttl)
  else
    (.error .InvalidCredentials, s)

/-- Modelled from the spec (section 4.4): logout calls remove unconditionally
and reports success even when no session existed for the address. -/
def logout (s : Store) (a : String) : Bool × Store :=
  (true, Store.remove s a)

end VerifyWifi

namespace VerifyWifiPage

/-- Authentication status of the page, from the AuthStatus constant object. -/
inductive AuthStatus
  | IDLE
  | LOADING
  | SUCCESS
  | ERROR
deriving DecidableEq, Repr

/-- FormData interface of the page. -/
structure FormData where
  username : String
  password : String
deriving DecidableEq, Repr

/-- ErrorMessages interface of the page: optional username, password and
general messages. -/
structure ErrorMessages where
  username : Option String
  password : Option String
  general : Option String
deriving DecidableEq, Repr

/-- Empty errors object, as produced by clearErrors. -/
def ErrorMessages.empty : ErrorMessages := ⟨none, none, none⟩

/-- Notification type accepted by notify. -/
inductive NotifType
  | success
  | error
  | info
deriving DecidableEq, Repr

/-- NotificationState interface: message, type and a key (Date.now in the
code, modelled as a natural number supplied by the caller). -/
structure NotificationState where
  message : String
  type : NotifType
  key : Nat
deriving DecidableEq, Repr

/-- Observable state of the VerifyWifiPage component: the five useState
hooks plus the auth_token key of localStorage. -/
structure PageState where
  formData : FormData
  authStatus : AuthStatus
  errors : ErrorMessages
  showPassword : Bool
  clientIP : String
  notification : Option NotificationState
  authTokenStorage : Option String
deriving DecidableEq, Repr

/-- Whitespace predicate for the JavaScript trim used by validateForm,
restricted to the ASCII whitespace characters. -/
def isJsWhitespace (c : Char) : Bool :=
  c == ' ' || c == '\t' || c == '\n' || c == '\r' || c == '\x0b' || c == '\x0c'

/-- Embedding of String.prototype.trim: drop leading and trailing
whitespace characters. -/
def jsTrim (s : String) : String :=
  String.mk (((s.data.dropWhile isJsWhitespace).reverse.dropWhile isJsWhitespace).reverse)

/-- validateForm (VerifyWifiPage.tsx lines 67 to 80): a username field error
when the trimmed username is empty, a password field error when the password
is empty; returns the new errors object and whether it is empty. -/
def validateForm (fd : FormData) : ErrorMessages × Bool :=
  let eUser : Option String := if jsTrim fd.username = "" then some "请输入用户名" else none
  let ePass : Option String := if fd.password = "" then some "请输入密码" else none
  (⟨eUser, ePass, none⟩, eUser.isNone && ePass.isNone)

/-- HTTP request issued by the page, reduced to method, path and the list of
JSON body fields in source order. -/
structure ApiRequest where
  method : String
  path : String
  bodyFields : List (String × String)
deriving DecidableEq, Repr

/-- Login request built by handleSubmit (lines 117 to 128): POST to
/api/auth/login with body fields username and password. -/
def loginRequest (fd : FormData) : ApiRequest :=
  { method := "POST"
    path := "/api/auth/login"
    bodyFields := [("username", fd.username), ("password", fd.password)] }

/-- Logout request built by handleLogout (lines 177 to 183): POST to
/api/auth/logout with the single body field client_ip. -/
def logoutRequest (clientIP : String) : ApiRequest :=
  { method := "POST"
    path := "/api/auth/logout"
    bodyFields := [("client_ip", clientIP)] }

/-- First phase of handleSubmit (lines 106 to 128): run validateForm; on
failure record the field errors and issue no request; on success set
LOADING, clear errors and issue the login request. -/
def handleSubmitStart (st : PageState) : PageState × Option ApiRequest :=
  let v := validateForm st.formData
  if v.2 then
    ({ st with authStatus := .LOADING, errors := ErrorMessages.empty },
     some (loginRequest st.formData))
  else
    ({ st with errors := v.1 }, none)

/-- Parsed data object of the login response. -/
structure LoginData where
  session_token : Option String
deriving DecidableEq, Repr

/-- Parsed JSON login response: success flag, optional data object, optional
error message. -/
structure LoginResponse where
  success : Bool
  data : Option LoginData
  error : Option String
deriving DecidableEq, Repr

/-- JavaScript or-else on an optional string, as in result.error followed by
the or operator (line 149): the value when present and truthy (non-empty),
the fallback otherwise. -/
def jsOrElse (v : Option String) (fallback : String) : String :=
  match v with
  | some s => if s = "" then fallback else s
  | none => fallback

/-- Response branch of handleSubmit (lines 130 to 152): on success set
SUCCESS, notify, and write the auth_token localStorage key only when
data.session_token is present and truthy (the guard on line 136, under which
an empty-string token is falsy and skipped); otherwise set ERROR, notify with
the error message when truthy or the default otherwise (the or-fallback on
line 149), and set it as the general error. -/
def handleSubmitResponse (st : PageState) (result : LoginResponse) (key : Nat) : PageState :=
  if result.success then
    let st1 := { st with
                 authStatus := AuthStatus.SUCCESS
                 notification := some ⟨"认证成功！现在可以自由上网了。", .success, key⟩ }
    match result.data with
    | some d =>
      match d.session_token with
      | some tok => if tok = "" then st1 else { st1 with authTokenStorage := some tok }
      | none => st1
    | none => st1
  else
    let errorMessage := jsOrElse result.error "认证失败，请重试"
    { st with
      authStatus := AuthStatus.ERROR
      notification := some ⟨errorMessage, .error, key⟩
      errors := ⟨none, none, some errorMessage⟩ }

/-- Catch branch of handleSubmit (lines 153 to 163): a thrown fetch error
sets ERROR, notifies, and records a general network error message; the flag
models the TypeError test on the thrown value. -/
def handleSubmitCatch (st : PageState) (isFetchTypeError : Bool) (key : Nat) : PageState :=
  let errorMessage :=
    if isFetchTypeError then "无法连接到认证服务器，请检查网络连接"
    else "网络连接失败，请检查网络设置后重试"
  { st with
    authStatus := AuthStatus.ERROR
    notification := some ⟨errorMessage, .error, key⟩
    errors := ⟨none, none, some errorMessage⟩ }

/-- handleReset (lines 167 to 172): empty the form, return to IDLE, clear
errors and hide the password. -/
def handleReset (st : PageState) : PageState :=
  { st with
    formData := ⟨"", ""⟩
    authStatus := AuthStatus.IDLE
    errors := ErrorMessages.empty
    showPassword := false }

/-- URLSearchParams.get over a parsed query string: the first value bound to
the key, none when absent. -/
def urlParamsGet (params : List (String × String)) (k : String) : Option String :=
  (List.find? (fun p => p.1 == k) params).map (fun p => p.2)

/-- client_ip useEffect (lines 53 to 59): clientIP starts empty and is set
only when the client_ip query parameter is present and non-empty (the truthy
test in the code). -/
def initClientIP (params : List (String × String)) : String :=
  match urlParamsGet params "client_ip" with
  | some ip => if ip = "" then "" else ip
  | none => ""

/-- Modelled from the spec (sections 4.3 and 6): the query parameters of the
redirect URL synthesized by the interceptor (wifi_proxy.py, absent from the
snapshot) for an unauthenticated plain-HTTP request: the authentication page
with the client address bound to client_ip. -/
def redirectParams (clientAddr : String) : List (String × String) :=
  [("client_ip", clientAddr)]

end VerifyWifiPage

/-
Helper definitions and lemmas shared by the claim theorems.
-/

namespace VerifyWifi

/-- Demonstration store holding an AUTHENTICATED session for 10.0.0.5, as in
spec section 8 scenario 3. -/
def demoStore : Store := [("10.0.0.5", ⟨some "tok1", 0, 3600⟩)]

/-- Removing an address leaves no row for it: the raw lookup after remove is
none. -/
theorem getRaw_remove_self (s : Store) (a : String) :
    Store.getRaw (Store.remove s a) a = none := by
  rw [Store.getRaw, Option.map_eq_none']
  rw [List.find?_eq_none]
  intro x hx
  rw [Store.remove, List.mem_filter] at hx
  simpa using hx.2

/-- Remove is idempotent on the underlying list. -/
theorem remove_remove_self (s : Store) (a : String) :
    Store.remove (Store.remove s a) a = Store.remove s a := by
  rw [Store.remove, Store.remove, List.filter_filter]
  congr 1
  funext p
  exact Bool.and_self _

end VerifyWifi

namespace VerifyWifiPage

/-- Idle page state wrapping a given form, used to exercise handleSubmit on
concrete inputs. -/
def idleState (fd : FormData) : PageState :=
  { formData := fd
    authStatus := .IDLE
    errors := ErrorMessages.empty
    showPassword := false
    clientIP := ""
    notification := none
    authTokenStorage := none }

end VerifyWifiPage

/-
Claim theorems.
-/

/-- C1: for a pending request whose session lookup succeeded, decide returns
exactly one of the three actions, determined solely by the session state and
the scheme of the request: AUTHENTICATED forwards; UNAUTHENTICATED redirects
plain HTTP and rejects tunnel requests; there is no other branch. -/
theorem decide_three_branches (st : VerifyWifi.SessionState) (m t a : String)
    (sc : VerifyWifi.Scheme) :
    VerifyWifi.decide (.ok st) ⟨m, t, sc, a⟩ =
      (match st, sc with
       | .AUTHENTICATED, _ => .FORWARD
       | .UNAUTHENTICATED, .plainHTTP => .REDIRECT_AUTH
       | .UNAUTHENTICATED, .tunnelled => .REJECT) := by
  cases st <;> cases sc <;> rfl

/-- C2: when the session-store lookup fails with a storage error, decide
fails closed: the result is REJECT or REDIRECT_AUTH, never FORWARD. -/
theorem decide_fail_closed (e : VerifyWifi.StoreIoError) (r : VerifyWifi.PendingRequest) :
    VerifyWifi.decide (.error e) r = .REJECT ∨
    VerifyWifi.decide (.error e) r = .REDIRECT_AUTH :=
  Or.inl rfl

/-- C5: after remove, get on the removed address returns UNAUTHENTICATED at
every time and from every prior store state, and remove twice in a row
produces the same store state as remove once. -/
theorem remove_unauth_and_idempotent (s : VerifyWifi.Store) (now : Nat) (a : String) :
    VerifyWifi.Store.getState (VerifyWifi.Store.remove s a) now a = .UNAUTHENTICATED ∧
    VerifyWifi.Store.remove (VerifyWifi.Store.remove s a) a = VerifyWifi.Store.remove s a := by
  constructor
  · rw [VerifyWifi.Store.getState, VerifyWifi.getRaw_remove_self]
  · exact VerifyWifi.remove_remove_self s a

/-- C6: a submitted credential pair different from the configured pair makes
login return InvalidCredentials and leave the store exactly as it was. -/
theorem login_invalid_credentials (s : VerifyWifi.Store) (a u p tok : String) (now ttl : Nat)
    (h : ¬(u = VerifyWifi.VALID_CREDENTIALS.username ∧
           p = VerifyWifi.VALID_CREDENTIALS.password)) :
    VerifyWifi.login s a u p tok now ttl = (.error .InvalidCredentials, s) := by
  rw [VerifyWifi.login, if_neg h]

/-- C6 witness: a wrong password for 10.0.0.5 yields InvalidCredentials and
the store still holds the AUTHENTICATED session untouched. -/
theorem login_invalid_credentials_witness :
    (¬("addyya" = VerifyWifi.VALID_CREDENTIALS.username ∧
       "wrong" = VerifyWifi.VALID_CREDENTIALS.password)) ∧
    VerifyWifi.login VerifyWifi.demoStore "10.0.0.5" "addyya" "wrong" "t2" 5 60 =
      (.error .InvalidCredentials, VerifyWifi.demoStore) ∧
    VerifyWifi.Store.getState VerifyWifi.demoStore 5 "10.0.0.5" = .AUTHENTICATED :=
  ⟨by decide,
   login_invalid_credentials VerifyWifi.demoStore "10.0.0.5" "addyya" "wrong" "t2" 5 60 (by decide),
   by rfl⟩

/-- C3: the login request is a POST to /api/auth/login whose body fields are
exactly username and password; a success response carrying data.session_token
has its token stored when truthy (the non-empty guard of line 136), and a
failure response has its error field, when truthy, shown as the general
message and notification, with the default message replacing a missing or
empty error (the or-fallback of line 149). -/
theorem login_request_and_response_shape (fd : VerifyWifiPage.FormData) :
    (VerifyWifiPage.loginRequest fd).method = "POST" ∧
    (VerifyWifiPage.loginRequest fd).path = "/api/auth/login" ∧
    (VerifyWifiPage.loginRequest fd).bodyFields =
      [("username", fd.username), ("password", fd.password)] ∧
    (∀ (st : VerifyWifiPage.PageState) (key : Nat) (tok : String) (e : Option String),
      (VerifyWifiPage.handleSubmitResponse st ⟨true, some ⟨some tok⟩, e⟩ key).authTokenStorage
        = (if tok = "" then st.authTokenStorage else some tok) ∧
      (VerifyWifiPage.handleSubmitResponse st ⟨true, some ⟨some tok⟩, e⟩ key).authStatus
        = .SUCCESS) ∧
    (∀ (st : VerifyWifiPage.PageState) (key : Nat) (d : Option VerifyWifiPage.LoginData)
       (e : String),
      (VerifyWifiPage.handleSubmitResponse st ⟨false, d, some e⟩ key).errors.general =
        some (if e = "" then "认证失败，请重试" else e) ∧
      (VerifyWifiPage.handleSubmitResponse st ⟨false, d, some e⟩ key).notification =
        some ⟨if e = "" then "认证失败，请重试" else e, .error, key⟩) := by
  refine ⟨rfl, rfl, rfl, fun st key tok e => ⟨?_, ?_⟩, fun st key d e => ⟨rfl, rfl⟩⟩ <;>
    by_cases h : tok = "" <;> simp [VerifyWifiPage.handleSubmitResponse, h]

/-- C4 counterexample: with the page opened from the redirect for client
10.0.0.5 (so clientIP was read as 10.0.0.5), the login request body holds
exactly the fields username and password and no client_ip field, so the login
call does not carry the address the redirect embedded. -/
theorem login_not_correlated_by_client_ip :
    VerifyWifiPage.initClientIP (VerifyWifiPage.redirectParams "10.0.0.5") = "10.0.0.5" ∧
    (VerifyWifiPage.loginRequest ⟨"addyya", "sf123123"⟩).bodyFields.map Prod.fst =
      ["username", "password"] ∧
    List.find? (fun p => p.1 == "client_ip")
      (VerifyWifiPage.loginRequest ⟨"addyya", "sf123123"⟩).bodyFields = none :=
  ⟨rfl, rfl, rfl⟩

/-- C4 amended: the redirect embeds the client address as the client_ip query
parameter, and the page reads client_ip from its URL query string into its
clientIP state; the login request body holds only username and password, and
the client_ip field is sent to the endpoint only by the logout request. -/
theorem redirect_embeds_client_ip (addr ip : String) (fd : VerifyWifiPage.FormData) :
    VerifyWifiPage.urlParamsGet (VerifyWifiPage.redirectParams addr) "client_ip" = some addr ∧
    VerifyWifiPage.initClientIP (VerifyWifiPage.redirectParams addr) =
      (if addr = "" then "" else addr) ∧
    (VerifyWifiPage.loginRequest fd).bodyFields.map Prod.fst = ["username", "password"] ∧
    (VerifyWifiPage.logoutRequest ip).bodyFields = [("client_ip", ip)] :=
  ⟨rfl, rfl, rfl, rfl⟩

/-- C7: the logout request is a POST to /api/auth/logout whose body holds
exactly the field client_ip, and logout removes the session and reports
success unconditionally, even on an empty store. -/
theorem logout_request_and_unconditional_success (ip : String) (s : VerifyWifi.Store)
    (a : String) :
    (VerifyWifiPage.logoutRequest ip).method = "POST" ∧
    (VerifyWifiPage.logoutRequest ip).path = "/api/auth/logout" ∧
    (VerifyWifiPage.logoutRequest ip).bodyFields = [("client_ip", ip)] ∧
    (VerifyWifi.logout s a).1 = true ∧
    (VerifyWifi.logout s a).2 = VerifyWifi.Store.remove s a ∧
    (VerifyWifi.logout ([] : VerifyWifi.Store) "10.0.0.5").1 = true :=
  ⟨rfl, rfl, rfl, rfl, rfl, rfl⟩

/-- C8: a failure response or a thrown fetch error sets ERROR and a general
message and leaves the stored auth_token untouched; across all responses the
auth_token key changes only on success = true with data.session_token present
and truthy (the guard of line 136), in which case it becomes that token. -/
theorem submit_error_paths_never_store_token (st : VerifyWifiPage.PageState) (key : Nat) :
    (∀ (d : Option VerifyWifiPage.LoginData) (e : Option String),
      (VerifyWifiPage.handleSubmitResponse st ⟨false, d, e⟩ key).authStatus = .ERROR ∧
      (VerifyWifiPage.handleSubmitResponse st ⟨false, d, e⟩ key).errors.general =
        some (VerifyWifiPage.jsOrElse e "认证失败，请重试") ∧
      (VerifyWifiPage.handleSubmitResponse st ⟨false, d, e⟩ key).authTokenStorage =
        st.authTokenStorage) ∧
    (∀ b : Bool,
      (VerifyWifiPage.handleSubmitCatch st b key).authStatus = .ERROR ∧
      (VerifyWifiPage.handleSubmitCatch st b key).errors.general =
        some (if b then "无法连接到认证服务器，请检查网络连接"
              else "网络连接失败，请检查网络设置后重试") ∧
      (VerifyWifiPage.handleSubmitCatch st b key).authTokenStorage = st.authTokenStorage) ∧
    (∀ r : VerifyWifiPage.LoginResponse,
      (VerifyWifiPage.handleSubmitResponse st r key).authTokenStorage =
        match r.success, r.data with
        | true, some d =>
          match d.session_token with
          | some tok => if tok = "" then st.authTokenStorage else some tok
          | none => st.authTokenStorage
        | _, _ => st.authTokenStorage) := by
  refine ⟨fun d e => ⟨rfl, rfl, rfl⟩, fun b => ⟨rfl, rfl, rfl⟩, fun r => ?_⟩
  rcases r with ⟨s, d, e⟩
  cases s
  · cases d <;> rfl
  · cases d with
    | none => rfl
    | some dd =>
      rcases dd with ⟨t⟩
      cases t with
      | none => rfl
      | some tok => by_cases h : tok = "" <;> simp [VerifyWifiPage.handleSubmitResponse, h]

/-- C9: validateForm accepts exactly when the trimmed username is non-empty
and the password is non-empty, and handleSubmit issues the login request
exactly when validateForm accepts; a whitespace-only username is rejected
with a field error and no request, while a whitespace-only password passes
and is submitted. -/
theorem validateForm_gates_submit (fd : VerifyWifiPage.FormData)
    (st : VerifyWifiPage.PageState) :
    ((VerifyWifiPage.validateForm fd).2 = true ↔
      (VerifyWifiPage.jsTrim fd.username ≠ "" ∧ fd.password ≠ "")) ∧
    ((VerifyWifiPage.handleSubmitStart st).2).isSome =
      (VerifyWifiPage.validateForm st.formData).2 ∧
    (VerifyWifiPage.validateForm ⟨"   ", "pw"⟩).2 = false ∧
    (VerifyWifiPage.validateForm ⟨"   ", "pw"⟩).1.username = some "请输入用户名" ∧
    (VerifyWifiPage.handleSubmitStart (VerifyWifiPage.idleState ⟨"   ", "pw"⟩)).2 = none ∧
    (VerifyWifiPage.validateForm ⟨"user", "   "⟩).2 = true ∧
    (VerifyWifiPage.handleSubmitStart (VerifyWifiPage.idleState ⟨"user", "   "⟩)).2 =
      some (VerifyWifiPage.loginRequest ⟨"user", "   "⟩) := by
  refine ⟨?_, ?_, rfl, rfl, rfl, rfl, rfl⟩
  · by_cases h1 : VerifyWifiPage.jsTrim fd.username = "" <;>
      by_cases h2 : fd.password = "" <;>
      simp [VerifyWifiPage.validateForm, h1, h2]
  · rw [VerifyWifiPage.handleSubmitStart]
    cases h : (VerifyWifiPage.validateForm st.formData).2 <;> simp [h]

/-- C10: handleReset empties the form, returns the status to IDLE, clears
the errors and hides the password, and leaves clientIP, the notification and
the stored auth_token unchanged. -/
theorem handleReset_frame (st : VerifyWifiPage.PageState) :
    (VerifyWifiPage.handleReset st).formData = ⟨"", ""⟩ ∧
    (VerifyWifiPage.handleReset st).authStatus = .IDLE ∧
    (VerifyWifiPage.handleReset st).errors = VerifyWifiPage.ErrorMessages.empty ∧
    (VerifyWifiPage.handleReset st).showPassword = false ∧
    (VerifyWifiPage.handleReset st).clientIP = st.clientIP ∧
    (VerifyWifiPage.handleReset st).notification = st.notification ∧
    (VerifyWifiPage.handleReset st).authTokenStorage = st.authTokenStorage :=
  ⟨rfl, rfl, rfl, rfl, rfl, rfl, rfl⟩
